import Mathlib

/-
Shallow embedding of `Watch8004Agent.validate_analysis`
(src/agents/watch_agent.py, lines 110-174) and proofs about it.

Python values are modelled by the inductive type `Value`; an input record
(a Python dict with string keys) is an association list `Record`, looked up
first-match.  The semantics of the Python operations the function uses —
`k in v` (membership), `v[k]` (subscription) and `len(v)` — are modelled by
`pyIn`, `pySubscr` and `pyLen`, each returning `Except PyErr _` because
Python raises `TypeError` on non-container operands and `KeyError` on a
missing dict key.  `datetime.now().isoformat()` is modelled by the explicit
parameter `now`, and `self.name` by the parameter `name`.
-/

namespace Watch8004

/-- A Python runtime value as used by the agent: strings, ints, floats
(kept as a numerator/denominator pair, only their non-container nature
matters), booleans, lists, dicts with string keys, and None. -/
inductive Value where
  | str (s : String)
  | int (n : Int)
  | real (numer : Int) (denom : Nat)
  | bool (b : Bool)
  | list (xs : List Value)
  | dict (entries : List (String × Value))
  | none

/-- A Python dict with string keys, as an association list (first match wins;
actual Python dicts have unique keys, a special case). -/
abbrev Record := List (String × Value)

/-- The two Python exceptions `validate_analysis` can raise. -/
inductive PyErr where
  | typeError
  | keyError
deriving DecidableEq, Repr

/-- Does the character list `needle` occur at the head of `hay`? -/
def leadMatch : List Char → List Char → Bool
  | [], _ => true
  | _ :: _, [] => false
  | a :: as, b :: bs => a == b && leadMatch as bs

/-- Does the character list `needle` occur contiguously anywhere in `hay`? -/
def hasRun (needle : List Char) : List Char → Bool
  | [] => needle.isEmpty
  | b :: bs => leadMatch needle (b :: bs) || hasRun needle bs

/-- Python substring test: `needle in hay` for strings. -/
def strHasSub (needle hay : String) : Bool := hasRun needle.data hay.data

/-- First-match lookup in an association list, as Python dict lookup. -/
def lookupKey : List (String × Value) → String → Option Value
  | [], _ => Option.none
  | e :: es, k => if e.1 == k then Option.some e.2 else lookupKey es k

/-- Semantics of the Python expression `needle in v` for a string `needle`:
key test on dicts, element test on lists, substring test on strings;
`TypeError` on ints, floats, booleans and None. -/
def pyIn (needle : String) (v : Value) : Except PyErr Bool :=
  match v with
  | .str s => .ok (strHasSub needle s)
  | .list xs => .ok (xs.any fun x => match x with | .str s => s == needle | _ => false)
  | .dict es => .ok (es.any fun e => e.1 == needle)
  | _ => .error .typeError

/-- Semantics of the Python expression `v[k]` for a string key `k`:
dict lookup (raising `KeyError` when absent), `TypeError` on anything
else (string indices and list indices must be integers). -/
def pySubscr (v : Value) (k : String) : Except PyErr Value :=
  match v with
  | .dict es =>
    match lookupKey es k with
    | Option.some x => .ok x
    | Option.none => .error .keyError
  | _ => .error .typeError

/-- Semantics of Python `len(v)`: defined on strings, lists and dicts,
`TypeError` otherwise. -/
def pyLen : Value → Except PyErr Nat
  | .str s => .ok s.length
  | .list xs => .ok xs.length
  | .dict es => .ok es.length
  | _ => .error .typeError

/-- `k in analysis_data` for the top-level record. -/
def hasKey (rec : Record) (k : String) : Bool := (lookupKey rec k).isSome

/-- `analysis_data.get(k, d)` for the top-level record. -/
def getD (rec : Record) (k : String) (d : Value) : Value := (lookupKey rec k).getD d

/-- `analysis_data[k]` for the top-level record. -/
def recSubscr (rec : Record) (k : String) : Except PyErr Value :=
  match lookupKey rec k with
  | Option.some v => .ok v
  | Option.none => .error .keyError

/-- The validation result dict built by `validate_analysis`; the Python key
"structure" is spelled `structureFlag` because `structure` is a Lean keyword. -/
structure ValidationResult where
  validator : String
  timestamp : String
  score : Nat
  feedback : List String
  methodology : String
  completeness : Bool
  structureFlag : Bool
  quality : Bool
  recommendation : String
deriving DecidableEq, Repr

/-- Rule 1: `all(field in analysis_data for field in required_fields)` with
`required_fields = ["symbol", "timestamp", "analysis", "insights"]`. -/
def rule1 (rec : Record) : Bool :=
  ["symbol", "timestamp", "analysis", "insights"].all (hasKey rec)

/-- Rule 2 condition: `"trend" in analysis_data.get("analysis", {})`, and if so,
`trend = analysis_data["analysis"]["trend"]` followed by the short-circuit
conjunction `"direction" in trend and "confidence" in trend`. -/
def rule2check (rec : Record) : Except PyErr Bool :=
  match pyIn "trend" (getD rec "analysis" (.dict [])) with
  | .error e => .error e
  | .ok c =>
    if c then
      match recSubscr rec "analysis" with
      | .error e => .error e
      | .ok a =>
        match pySubscr a "trend" with
        | .error e => .error e
        | .ok trend =>
          match pyIn "direction" trend with
          | .error e => .error e
          | .ok d =>
            if d then pyIn "confidence" trend else .ok false
    else .ok false

/-- Rule 3 condition: `"price_levels" in analysis_data.get("analysis", {})`,
and if so `price_levels = analysis_data["analysis"]["price_levels"]` followed by
`"support" in price_levels and "resistance" in price_levels`. -/
def rule3check (rec : Record) : Except PyErr Bool :=
  match pyIn "price_levels" (getD rec "analysis" (.dict [])) with
  | .error e => .error e
  | .ok c =>
    if c then
      match recSubscr rec "analysis" with
      | .error e => .error e
      | .ok a =>
        match pySubscr a "price_levels" with
        | .error e => .error e
        | .ok pl =>
          match pyIn "support" pl with
          | .error e => .error e
          | .ok s =>
            if s then pyIn "resistance" pl else .ok false
    else .ok false

/-- Rule 4 condition: `insights = analysis_data.get("insights", [])` then
`len(insights) >= 3`. -/
def rule4check (rec : Record) : Except PyErr Bool :=
  match pyLen (getD rec "insights" (.list [])) with
  | .error e => .error e
  | .ok n => .ok (decide (3 ≤ n))

/-- Rule 5 condition: `"risk_assessment" in analysis_data`. -/
def rule5 (rec : Record) : Bool := hasKey rec "risk_assessment"

/-- The accumulated score: `score += 25 / 25 / 20 / 15 / 15` guarded by the
five rule conditions, in source order. -/
def totalScore (b1 b2 b3 b4 b5 : Bool) : Nat :=
  (if b1 then 25 else 0) + (if b2 then 25 else 0) + (if b3 then 20 else 0) +
    (if b4 then 15 else 0) + (if b5 then 15 else 0)

/-- The accumulated feedback list: one fixed string appended per satisfied
rule, in source order. -/
def feedbacks (b1 b2 b3 b4 b5 : Bool) : List String :=
  (if b1 then ["All required fields present"] else []) ++
    (if b2 then ["Trend analysis well-structured"] else []) ++
      (if b3 then ["Price levels properly identified"] else []) ++
        (if b4 then ["Comprehensive insights provided"] else []) ++
          (if b5 then ["Risk assessment included"] else [])

/-- The `validation_result` dict literal at the end of `validate_analysis`:
`score` clamped by `min(score, 100)`, the `criteria` flags and the
`recommendation` all computed from the unclamped accumulated score. -/
def mkValidationResult (name now : String) (b1 b2 b3 b4 b5 : Bool) : ValidationResult :=
  let score := totalScore b1 b2 b3 b4 b5
  { validator := name
    timestamp := now
    score := min score 100
    feedback := feedbacks b1 b2 b3 b4 b5
    methodology := "multi-factor_validation"
    completeness := decide (70 ≤ score)
    structureFlag := true
    quality := decide (80 ≤ score)
    recommendation := if 70 ≤ score then "approved" else "needs_improvement" }

/-- `Watch8004Agent.validate_analysis(analysis_data)`: the five checks run in
source order (rules 1 and 5 are pure key tests and cannot raise; rules 2, 3
and 4 can raise `TypeError`, which propagates), then the result dict is
built.  `name` is `self.name` and `now` is `datetime.now().isoformat()`. -/
def validate_analysis (name now : String) (rec : Record) : Except PyErr ValidationResult :=
  match rule2check rec with
  | .error e => .error e
  | .ok b2 =>
    match rule3check rec with
    | .error e => .error e
    | .ok b3 =>
      match rule4check rec with
      | .error e => .error e
      | .ok b4 => .ok (mkValidationResult name now (rule1 rec) b2 b3 b4 (rule5 rec))

/-- The spec's worked example record that satisfies all five criteria. -/
def exFull : Record :=
  [("symbol", .str "BTC"), ("timestamp", .str "t"),
   ("analysis", .dict
     [("trend", .dict [("direction", .str "bullish"), ("confidence", .real 8 10)]),
      ("price_levels", .dict [("support", .list [.int 1]), ("resistance", .list [.int 2])])]),
   ("insights", .list [.str "a", .str "b", .str "c"]),
   ("risk_assessment", .dict [("level", .str "low")])]

/-- The spec's worked example record that satisfies only rule 1. -/
def exPartial : Record :=
  [("symbol", .str "BTC"), ("timestamp", .str "t"),
   ("analysis", .dict []), ("insights", .list [])]

lemma totalScore_le_100 (b1 b2 b3 b4 b5 : Bool) : totalScore b1 b2 b3 b4 b5 ≤ 100 := by
  cases b1 <;> cases b2 <;> cases b3 <;> cases b4 <;> cases b5 <;> decide

lemma validate_ok_cases {name now : String} {rec : Record} {res : ValidationResult}
    (h : validate_analysis name now rec = .ok res) :
    ∃ b2 b3 b4 : Bool,
      rule2check rec = .ok b2 ∧ rule3check rec = .ok b3 ∧ rule4check rec = .ok b4 ∧
      res = mkValidationResult name now (rule1 rec) b2 b3 b4 (rule5 rec) := by
  cases h2 : rule2check rec with
  | error e => simp [validate_analysis, h2] at h
  | ok b2 =>
    cases h3 : rule3check rec with
    | error e => simp [validate_analysis, h2, h3] at h
    | ok b3 =>
      cases h4 : rule4check rec with
      | error e => simp [validate_analysis, h2, h3, h4] at h
      | ok b4 =>
        simp only [validate_analysis, h2, h3, h4, Except.ok.injEq] at h
        exact ⟨b2, b3, b4, rfl, rfl, rfl, h.symm⟩

lemma mk_score (name now : String) (b1 b2 b3 b4 b5 : Bool) :
    (mkValidationResult name now b1 b2 b3 b4 b5).score = totalScore b1 b2 b3 b4 b5 := by
  simp [mkValidationResult, Nat.min_eq_left (totalScore_le_100 b1 b2 b3 b4 b5)]

/-- C1: whenever `validate_analysis` returns a result, the five rules were
checked in the fixed order with the fixed weights 25/25/20/15/15 and fixed
feedback strings: the score is min(sum of awarded points, 100) and the
feedback lists exactly the satisfied rules' strings in that order. -/
theorem validate_rule_weights_and_feedback (name now : String) (rec : Record)
    (res : ValidationResult) (h : validate_analysis name now rec = .ok res) :
    ∃ b2 b3 b4 : Bool,
      rule2check rec = .ok b2 ∧ rule3check rec = .ok b3 ∧ rule4check rec = .ok b4 ∧
      res.score = min (totalScore (rule1 rec) b2 b3 b4 (rule5 rec)) 100 ∧
      res.feedback = feedbacks (rule1 rec) b2 b3 b4 (rule5 rec) := by
  obtain ⟨b2, b3, b4, h2, h3, h4, rfl⟩ := validate_ok_cases h
  exact ⟨b2, b3, b4, h2, h3, h4, rfl, rfl⟩

/-- C1 witness: the theorem instantiated at the spec's full example record. -/
theorem validate_rule_weights_and_feedback_witness :
    ∃ b2 b3 b4 : Bool,
      rule2check exFull = .ok b2 ∧ rule3check exFull = .ok b3 ∧ rule4check exFull = .ok b4 ∧
      (mkValidationResult "Watch8004" "t" true true true true true).score =
        min (totalScore (rule1 exFull) b2 b3 b4 (rule5 exFull)) 100 ∧
      (mkValidationResult "Watch8004" "t" true true true true true).feedback =
        feedbacks (rule1 exFull) b2 b3 b4 (rule5 exFull) :=
  validate_rule_weights_and_feedback "Watch8004" "t" exFull
    (mkValidationResult "Watch8004" "t" true true true true true) rfl

/-- C3: whenever `validate_analysis` returns a result, the score (a natural
number, hence at least 0) is at most 100, the recommendation is "approved"
exactly when the score is at least 70, and otherwise the recommendation is
"needs_improvement". -/
theorem validate_score_bounds_and_recommendation (name now : String) (rec : Record)
    (res : ValidationResult) (h : validate_analysis name now rec = .ok res) :
    res.score ≤ 100 ∧ (res.recommendation = "approved" ↔ 70 ≤ res.score) ∧
      (res.score < 70 → res.recommendation = "needs_improvement") := by
  obtain ⟨b2, b3, b4, _, _, _, rfl⟩ := validate_ok_cases h
  have hle := totalScore_le_100 (rule1 rec) b2 b3 b4 (rule5 rec)
  refine ⟨by simp [mkValidationResult], ?_, ?_⟩
  · rw [mk_score]
    by_cases hc : 70 ≤ totalScore (rule1 rec) b2 b3 b4 (rule5 rec)
    · simp [mkValidationResult, hc]
    · simp only [mkValidationResult, if_neg hc]
      exact iff_of_false (by decide) hc
  · rw [mk_score]
    intro hlt
    have hc : ¬ 70 ≤ totalScore (rule1 rec) b2 b3 b4 (rule5 rec) := Nat.not_le.mpr hlt
    simp only [mkValidationResult, if_neg hc]

/-- C3 witness: the theorem instantiated at the empty record. -/
theorem validate_score_bounds_and_recommendation_witness :
    (mkValidationResult "Watch8004" "t" false false false false false).score ≤ 100 ∧
    ((mkValidationResult "Watch8004" "t" false false false false false).recommendation =
        "approved" ↔
      70 ≤ (mkValidationResult "Watch8004" "t" false false false false false).score) ∧
    ((mkValidationResult "Watch8004" "t" false false false false false).score < 70 →
      (mkValidationResult "Watch8004" "t" false false false false false).recommendation =
        "needs_improvement") :=
  validate_score_bounds_and_recommendation "Watch8004" "t" []
    (mkValidationResult "Watch8004" "t" false false false false false) rfl

/-- C6: on the record with all four required keys, an empty analysis dict,
an empty insights list and no risk assessment, `validate_analysis` returns
score 25, feedback ["All required fields present"] and recommendation
"needs_improvement". -/
theorem validate_example_partial_eval (name now : String) :
    validate_analysis name now exPartial =
      .ok { validator := name, timestamp := now, score := 25,
            feedback := ["All required fields present"],
            methodology := "multi-factor_validation",
            completeness := false, structureFlag := true, quality := false,
            recommendation := "needs_improvement" } := rfl

/-- C10: whenever `validate_analysis` returns a result, the structure flag
is True, the completeness flag holds exactly when the score is at least 70
(equivalently, exactly when the recommendation is "approved"), and the
quality flag holds exactly when the score is at least 80. -/
theorem validate_criteria_flags (name now : String) (rec : Record)
    (res : ValidationResult) (h : validate_analysis name now rec = .ok res) :
    res.structureFlag = true ∧
    (res.completeness = true ↔ 70 ≤ res.score) ∧
    (res.completeness = true ↔ res.recommendation = "approved") ∧
    (res.quality = true ↔ 80 ≤ res.score) := by
  obtain ⟨b2, b3, b4, _, _, _, rfl⟩ := validate_ok_cases h
  have hle := totalScore_le_100 (rule1 rec) b2 b3 b4 (rule5 rec)
  refine ⟨rfl, ?_, ?_, ?_⟩
  · rw [mk_score]
    simp only [mkValidationResult]
    exact decide_eq_true_iff
  · simp only [mkValidationResult]
    by_cases hc : 70 ≤ totalScore (rule1 rec) b2 b3 b4 (rule5 rec)
    · simp [hc]
    · simp only [if_neg hc, decide_eq_true_iff]
      exact iff_of_false hc (by decide)
  · rw [mk_score]
    simp only [mkValidationResult]
    exact decide_eq_true_iff

/-- C10 witness: the theorem instantiated at the full example record. -/
theorem validate_criteria_flags_witness :
    (mkValidationResult "Watch8004" "t" true true true true true).structureFlag = true ∧
    ((mkValidationResult "Watch8004" "t" true true true true true).completeness = true ↔
      70 ≤ (mkValidationResult "Watch8004" "t" true true true true true).score) ∧
    ((mkValidationResult "Watch8004" "t" true true true true true).completeness = true ↔
      (mkValidationResult "Watch8004" "t" true true true true true).recommendation =
        "approved") ∧
    ((mkValidationResult "Watch8004" "t" true true true true true).quality = true ↔
      80 ≤ (mkValidationResult "Watch8004" "t" true true true true true).score) :=
  validate_criteria_flags "Watch8004" "t" exFull
    (mkValidationResult "Watch8004" "t" true true true true true) rfl

/-- C4: whenever all five rule conditions hold, `validate_analysis` returns
score 100, the five feedback strings in the fixed rule order, and
recommendation "approved". -/
theorem validate_all_rules_full_score (name now : String) (rec : Record)
    (h1 : rule1 rec = true) (h2 : rule2check rec = .ok true)
    (h3 : rule3check rec = .ok true) (h4 : rule4check rec = .ok true)
    (h5 : rule5 rec = true) :
    ∃ res, validate_analysis name now rec = .ok res ∧ res.score = 100 ∧
      res.feedback = ["All required fields present", "Trend analysis well-structured",
        "Price levels properly identified", "Comprehensive insights provided",
        "Risk assessment included"] ∧
      res.recommendation = "approved" := by
  refine ⟨mkValidationResult name now true true true true true, ?_, rfl, rfl, rfl⟩
  simp [validate_analysis, h1, h2, h3, h4, h5]

/-- C4 witness: the theorem instantiated at the spec's full example record. -/
theorem validate_all_rules_full_score_witness :
    ∃ res, validate_analysis "Watch8004" "t" exFull = .ok res ∧ res.score = 100 ∧
      res.feedback = ["All required fields present", "Trend analysis well-structured",
        "Price levels properly identified", "Comprehensive insights provided",
        "Risk assessment included"] ∧
      res.recommendation = "approved" :=
  validate_all_rules_full_score "Watch8004" "t" exFull rfl rfl rfl rfl rfl

/-- C5: on any record in which none of the five tracked keys is present,
`validate_analysis` returns score 0, an empty feedback list and
recommendation "needs_improvement". -/
theorem validate_all_missing_zero (name now : String) (rec : Record)
    (hs : lookupKey rec "symbol" = Option.none)
    (_ht : lookupKey rec "timestamp" = Option.none)
    (ha : lookupKey rec "analysis" = Option.none)
    (hi : lookupKey rec "insights" = Option.none)
    (hr : lookupKey rec "risk_assessment" = Option.none) :
    ∃ res, validate_analysis name now rec = .ok res ∧ res.score = 0 ∧
      res.feedback = [] ∧ res.recommendation = "needs_improvement" := by
  have h1 : rule1 rec = false := by simp [rule1, hasKey, hs]
  have h2 : rule2check rec = .ok false := by simp [rule2check, getD, ha, pyIn]
  have h3 : rule3check rec = .ok false := by simp [rule3check, getD, ha, pyIn]
  have h4 : rule4check rec = .ok false := by simp [rule4check, getD, hi, pyLen]
  have h5 : rule5 rec = false := by simp [rule5, hasKey, hr]
  exact ⟨mkValidationResult name now false false false false false,
    by simp [validate_analysis, h1, h2, h3, h4, h5], rfl, rfl, rfl⟩

/-- C5 witness: the theorem instantiated at the empty record. -/
theorem validate_all_missing_zero_witness :
    ∃ res, validate_analysis "Watch8004" "t" [] = .ok res ∧ res.score = 0 ∧
      res.feedback = [] ∧ res.recommendation = "needs_improvement" :=
  validate_all_missing_zero "Watch8004" "t" [] rfl rfl rfl rfl rfl

lemma cond_weight_mono (w : Nat) {b c : Bool} (h : b = true → c = true) :
    (if b then w else 0) ≤ (if c then w else 0) := by
  cases b
  · simp
  · simp [h rfl]

lemma totalScore_mono {b1 b2 b3 b4 b5 c1 c2 c3 c4 c5 : Bool}
    (h1 : b1 = true → c1 = true) (h2 : b2 = true → c2 = true)
    (h3 : b3 = true → c3 = true) (h4 : b4 = true → c4 = true)
    (h5 : b5 = true → c5 = true) :
    totalScore b1 b2 b3 b4 b5 ≤ totalScore c1 c2 c3 c4 c5 := by
  unfold totalScore
  exact Nat.add_le_add (Nat.add_le_add (Nat.add_le_add (Nat.add_le_add
    (cond_weight_mono 25 h1) (cond_weight_mono 25 h2)) (cond_weight_mono 20 h3))
    (cond_weight_mono 15 h4)) (cond_weight_mono 15 h5)

/-- C7: the score is monotone in the set of satisfied rules: whenever every
rule satisfied by the first record is also satisfied by the second, the
second record's score is at least the first record's score. -/
theorem validate_score_monotone (name now name2 now2 : String) (rec rec2 : Record)
    (res res2 : ValidationResult)
    (h : validate_analysis name now rec = .ok res)
    (h2 : validate_analysis name2 now2 rec2 = .ok res2)
    (m1 : rule1 rec = true → rule1 rec2 = true)
    (m2 : rule2check rec = .ok true → rule2check rec2 = .ok true)
    (m3 : rule3check rec = .ok true → rule3check rec2 = .ok true)
    (m4 : rule4check rec = .ok true → rule4check rec2 = .ok true)
    (m5 : rule5 rec = true → rule5 rec2 = true) :
    res.score ≤ res2.score := by
  obtain ⟨b2, b3, b4, hb2, hb3, hb4, rfl⟩ := validate_ok_cases h
  obtain ⟨c2, c3, c4, hc2, hc3, hc4, rfl⟩ := validate_ok_cases h2
  rw [mk_score, mk_score]
  refine totalScore_mono m1 ?_ ?_ ?_ m5
  · intro hb
    injection hc2.symm.trans (m2 (hb ▸ hb2))
  · intro hb
    injection hc3.symm.trans (m3 (hb ▸ hb3))
  · intro hb
    injection hc4.symm.trans (m4 (hb ▸ hb4))

/-- C7 witness: the theorem instantiated at the empty record (no rule
satisfied) and the full example record (all rules satisfied). -/
theorem validate_score_monotone_witness :
    (mkValidationResult "Watch8004" "t" false false false false false).score ≤
      (mkValidationResult "Watch8004" "t" true true true true true).score :=
  validate_score_monotone "Watch8004" "t" "Watch8004" "t" [] exFull
    (mkValidationResult "Watch8004" "t" false false false false false)
    (mkValidationResult "Watch8004" "t" true true true true true)
    rfl rfl (fun _ => rfl) (fun _ => rfl) (fun _ => rfl) (fun _ => rfl) (fun _ => rfl)

/-- The fields of the validation result other than the wall-clock
`timestamp`. -/
structure StableFields where
  validator : String
  score : Nat
  feedback : List String
  methodology : String
  completeness : Bool
  structureFlag : Bool
  quality : Bool
  recommendation : String
deriving DecidableEq, Repr

instance : DecidableEq (Except PyErr ValidationResult) := fun a b =>
  match a, b with
  | .ok x, .ok y =>
    if h : x = y then .isTrue (by rw [h]) else .isFalse (by intro hc; injection hc; contradiction)
  | .error x, .error y =>
    if h : x = y then .isTrue (by rw [h]) else .isFalse (by intro hc; injection hc; contradiction)
  | .ok _, .error _ => .isFalse (fun hc => Except.noConfusion hc)
  | .error _, .ok _ => .isFalse (fun hc => Except.noConfusion hc)

/-- Forget the `timestamp` field of a validation result. -/
def dropTimestamp (r : ValidationResult) : StableFields :=
  { validator := r.validator, score := r.score, feedback := r.feedback,
    methodology := r.methodology, completeness := r.completeness,
    structureFlag := r.structureFlag, quality := r.quality,
    recommendation := r.recommendation }

/-- C8 counterexample: two calls on the same input made at different clock
readings return results that are not identical, because the `timestamp`
field records `datetime.now()` of each call. -/
theorem validate_two_calls_differ :
    validate_analysis "Watch8004" "t1" [] ≠ validate_analysis "Watch8004" "t2" [] := by
  decide

/-- C8 amended: `validate_analysis` is deterministic at the call level in
every field except `timestamp`: two calls on the same input, whatever the
clock reads, agree on validator, score, feedback, methodology, all three
criteria flags and recommendation. -/
theorem validate_deterministic_up_to_timestamp (name now now2 : String) (rec : Record) :
    (validate_analysis name now rec).map dropTimestamp =
      (validate_analysis name now2 rec).map dropTimestamp := by
  unfold validate_analysis
  cases rule2check rec with
  | error e => rfl
  | ok b2 =>
    cases rule3check rec with
    | error e => rfl
    | ok b3 =>
      cases rule4check rec with
      | error e => rfl
      | ok b4 => rfl

lemma lookupKey_append (xs ys : List (String × Value)) (k : String) :
    lookupKey (xs ++ ys) k =
      match lookupKey xs k with
      | Option.some v => Option.some v
      | Option.none => lookupKey ys k := by
  induction xs with
  | nil => simp [lookupKey]
  | cons e es ih =>
    cases he : e.1 == k <;> simp [lookupKey, he, ih]

lemma lookupKey_append_single_ne (rec : Record) (k1 k : String) (v : Value)
    (h : (k1 == k) = false) :
    lookupKey (rec ++ [(k1, v)]) k = lookupKey rec k := by
  rw [lookupKey_append]
  cases lookupKey rec k <;> simp [lookupKey, h]

def exNoInsights : Record :=
  [("symbol", .str "BTC"), ("timestamp", .str "t"), ("analysis", .dict [])]

/-- C9 counterexample: on a record containing `symbol`, `timestamp` and
`analysis` but no `insights`, adding `insights = []` changes the output
(rule 1 fails without the `insights` key, so the score moves from 0 to 25). -/
theorem insights_absent_vs_empty_differ :
    validate_analysis "Watch8004" "t" exNoInsights ≠
      validate_analysis "Watch8004" "t" (exNoInsights ++ [("insights", Value.list [])]) := by
  decide

/-- C9 amended: for a record without `insights`, the record and the record
extended with `insights = []` both fail rule 4 and agree on rules 2, 3 and 5;
but rule 1 distinguishes them: it fails on the original record, and on the
extended record it holds exactly when `symbol`, `timestamp` and `analysis`
are all present, so the two validation outputs can differ. -/
theorem insights_absent_vs_empty_rules (rec : Record)
    (hi : lookupKey rec "insights" = Option.none) :
    rule4check rec = .ok false ∧
    rule4check (rec ++ [("insights", Value.list [])]) = .ok false ∧
    rule2check (rec ++ [("insights", Value.list [])]) = rule2check rec ∧
    rule3check (rec ++ [("insights", Value.list [])]) = rule3check rec ∧
    rule5 (rec ++ [("insights", Value.list [])]) = rule5 rec ∧
    rule1 rec = false ∧
    (rule1 (rec ++ [("insights", Value.list [])]) = true ↔
      hasKey rec "symbol" = true ∧ hasKey rec "timestamp" = true ∧
        hasKey rec "analysis" = true) := by
  have hIns : lookupKey (rec ++ [("insights", Value.list [])]) "insights" =
      Option.some (Value.list []) := by
    rw [lookupKey_append, hi]
    rfl
  have hSym := lookupKey_append_single_ne rec "insights" "symbol" (Value.list []) (by decide)
  have hTs := lookupKey_append_single_ne rec "insights" "timestamp" (Value.list []) (by decide)
  have hAn := lookupKey_append_single_ne rec "insights" "analysis" (Value.list []) (by decide)
  have hRisk := lookupKey_append_single_ne rec "insights" "risk_assessment"
    (Value.list []) (by decide)
  refine ⟨?_, ?_, ?_, ?_, ?_, ?_, ?_⟩
  · simp [rule4check, getD, hi, pyLen]
  · simp [rule4check, getD, hIns, pyLen]
  · simp only [rule2check, getD, recSubscr, hAn]
  · simp only [rule3check, getD, recSubscr, hAn]
  · simp only [rule5, hasKey, hRisk]
  · simp [rule1, hasKey, hi]
  · simp [rule1, hasKey, hIns, hSym, hTs, hAn]

/-- C9 amended witness: the theorem instantiated at the empty record. -/
theorem insights_absent_vs_empty_rules_witness :
    rule4check [] = .ok false ∧
    rule4check ([] ++ [("insights", Value.list [])]) = .ok false ∧
    rule2check ([] ++ [("insights", Value.list [])]) = rule2check [] ∧
    rule3check ([] ++ [("insights", Value.list [])]) = rule3check [] ∧
    rule5 ([] ++ [("insights", Value.list [])]) = rule5 [] ∧
    rule1 [] = false ∧
    (rule1 ([] ++ [("insights", Value.list [])]) = true ↔
      hasKey [] "symbol" = true ∧ hasKey [] "timestamp" = true ∧
        hasKey [] "analysis" = true) :=
  insights_absent_vs_empty_rules [] rfl

/-- C2 counterexample: on a record whose `analysis` key is bound to the
integer 5, the membership test `"trend" in 5` raises `TypeError`, so
`validate_analysis` does not return a result. -/
theorem validate_raises_on_int_analysis :
    validate_analysis "Watch8004" "t" [("analysis", Value.int 5)] =
      .error PyErr.typeError := rfl

def isDict : Value → Bool
  | .dict _ => true
  | _ => false

def isList : Value → Bool
  | .list _ => true
  | _ => false

/-- The `analysis` value is a mapping whose `trend` and `price_levels`
entries, when present, are themselves mappings. -/
def shapeAnalysis : Value → Bool
  | .dict es =>
    (match lookupKey es "trend" with
     | Option.none => true
     | Option.some t => isDict t) &&
      (match lookupKey es "price_levels" with
       | Option.none => true
       | Option.some p => isDict p)
  | _ => false

/-- A record is well-shaped when its `analysis` value (if present) is a
mapping with mapping-valued `trend` and `price_levels` entries (if present)
and its `insights` value (if present) is a list. -/
def wellShaped (rec : Record) : Bool :=
  (match lookupKey rec "analysis" with
   | Option.none => true
   | Option.some a => shapeAnalysis a) &&
    (match lookupKey rec "insights" with
     | Option.none => true
     | Option.some v => isList v)

lemma any_key_isSome (es : List (String × Value)) (k : String) :
    (es.any fun e => e.1 == k) = (lookupKey es k).isSome := by
  induction es with
  | nil => rfl
  | cons e es ih =>
    cases he : e.1 == k <;> simp [lookupKey, he, ih]

lemma rule2check_ok_of_shape (rec : Record)
    (h : (match lookupKey rec "analysis" with
          | Option.none => true
          | Option.some a => shapeAnalysis a) = true) :
    ∃ b, rule2check rec = .ok b := by
  cases hla : lookupKey rec "analysis" with
  | none => exact ⟨false, by simp [rule2check, getD, hla, pyIn]⟩
  | some a =>
    rw [hla] at h
    cases a
    case dict es =>
      simp only [shapeAnalysis, Bool.and_eq_true] at h
      obtain ⟨htr, _⟩ := h
      cases hlt : lookupKey es "trend" with
      | none =>
        exact ⟨false, by simp [rule2check, getD, hla, pyIn, any_key_isSome, hlt]⟩
      | some t =>
        rw [hlt] at htr
        cases t
        case dict tes =>
          cases hd : tes.any fun e => e.1 == "direction" with
          | false =>
            exact ⟨false, by
              simp [rule2check, getD, recSubscr, pySubscr, hla, pyIn,
                any_key_isSome, hlt, hd]⟩
          | true =>
            exact ⟨tes.any fun e => e.1 == "confidence", by
              simp [rule2check, getD, recSubscr, pySubscr, hla, pyIn,
                any_key_isSome, hlt, hd]⟩
        all_goals simp [isDict] at htr
    all_goals simp [shapeAnalysis] at h

lemma rule3check_ok_of_shape (rec : Record)
    (h : (match lookupKey rec "analysis" with
          | Option.none => true
          | Option.some a => shapeAnalysis a) = true) :
    ∃ b, rule3check rec = .ok b := by
  cases hla : lookupKey rec "analysis" with
  | none => exact ⟨false, by simp [rule3check, getD, hla, pyIn]⟩
  | some a =>
    rw [hla] at h
    cases a
    case dict es =>
      simp only [shapeAnalysis, Bool.and_eq_true] at h
      obtain ⟨_, hpl⟩ := h
      cases hlp : lookupKey es "price_levels" with
      | none =>
        exact ⟨false, by simp [rule3check, getD, hla, pyIn, any_key_isSome, hlp]⟩
      | some p =>
        rw [hlp] at hpl
        cases p
        case dict pes =>
          cases hd : pes.any fun e => e.1 == "support" with
          | false =>
            exact ⟨false, by
              simp [rule3check, getD, recSubscr, pySubscr, hla, pyIn,
                any_key_isSome, hlp, hd]⟩
          | true =>
            exact ⟨pes.any fun e => e.1 == "resistance", by
              simp [rule3check, getD, recSubscr, pySubscr, hla, pyIn,
                any_key_isSome, hlp, hd]⟩
        all_goals simp [isDict] at hpl
    all_goals simp [shapeAnalysis] at h

lemma rule4check_ok_of_shape (rec : Record)
    (h : (match lookupKey rec "insights" with
          | Option.none => true
          | Option.some v => isList v) = true) :
    ∃ b, rule4check rec = .ok b := by
  cases hli : lookupKey rec "insights" with
  | none => exact ⟨false, by simp [rule4check, getD, hli, pyLen]⟩
  | some v =>
    rw [hli] at h
    cases v
    case list xs =>
      exact ⟨decide (3 ≤ xs.length), by simp [rule4check, getD, hli, pyLen]⟩
    all_goals simp [isList] at h

/-- C2 amended: `validate_analysis` returns a result (raises no exception)
on every well-shaped record — in particular on every record whose fields are
absent, since absent fields are treated as rule-not-satisfied; but on a
record with a wrong-typed `analysis` or `insights` value it can raise
`TypeError` rather than treating the field as unsatisfied. -/
theorem validate_total_on_well_shaped (name now : String) (rec : Record)
    (h : wellShaped rec = true) :
    ∃ res, validate_analysis name now rec = .ok res := by
  unfold wellShaped at h
  rw [Bool.and_eq_true] at h
  obtain ⟨hA, hI⟩ := h
  obtain ⟨b2, hb2⟩ := rule2check_ok_of_shape rec hA
  obtain ⟨b3, hb3⟩ := rule3check_ok_of_shape rec hA
  obtain ⟨b4, hb4⟩ := rule4check_ok_of_shape rec hI
  exact ⟨mkValidationResult name now (rule1 rec) b2 b3 b4 (rule5 rec),
    by simp [validate_analysis, hb2, hb3, hb4]⟩

/-- C2 amended witness: the theorem instantiated at the spec's full example
record, which is well-shaped. -/
theorem validate_total_on_well_shaped_witness :
    ∃ res, validate_analysis "Watch8004" "t" exFull = .ok res :=
  validate_total_on_well_shaped "Watch8004" "t" exFull rfl

end Watch8004
